import Mathlib

/-!
Verification development for the Smart Expense Tracker repository.

Shallow embedding of the decision logic of the repository:
- `Categorizer`  : ml/categorizer.py  (keyword table, text cleaning, predict)
- `Predictor`    : ml/predictor.py    (next-month forecast, trend, overspending alerts)
- `Storage`      : database/db_manager.py (categories, transactions, budgets)
- `Assistant`    : ml/assistant.py    (message dispatch, add-expense / add-income handlers)

Machine reals of the source (Python floats) are modelled as exact rationals `ℚ`;
Python dicts returned by the source are modelled as structures, with a key that
the source sometimes omits modelled as an `Option` field.  Python text is
modelled as `String` / `List Char`.
-/

namespace Categorizer

/-- Whitespace characters as matched by Python's `\s` / `str.split()` on the
inputs considered (space, tab, newline, carriage return). -/
def isWs (c : Char) : Bool := c = ' ' || c = '\t' || c = '\n' || c = '\r'

/-- ASCII alphanumeric, the character class `[a-zA-Z0-9]` of the cleaning regex. -/
def isAlnumAscii (c : Char) : Bool :=
  ('a' ≤ c && c ≤ 'z') || ('A' ≤ c && c ≤ 'Z') || ('0' ≤ c && c ≤ '9')

/-- `re.sub(r'[^a-zA-Z0-9\s]', ' ', text)`: every character that is neither
alphanumeric nor whitespace becomes a space. -/
def subNonAlnum (s : List Char) : List Char :=
  s.map fun c => if isAlnumAscii c || isWs c then c else ' '

/-- Split on whitespace runs, dropping empty pieces (Python `text.split()`).
`cur` is the current word accumulated in reverse. -/
def splitWordsAux : List Char → List Char → List (List Char)
  | [], cur => if cur.isEmpty then [] else [cur.reverse]
  | c :: rest, cur =>
    if isWs c then
      if cur.isEmpty then splitWordsAux rest [] else cur.reverse :: splitWordsAux rest []
    else splitWordsAux rest (c :: cur)

/-- `' '.join(words)`. -/
def joinWords (ws : List (List Char)) : List Char := (ws.intersperse [' ']).flatten

/-- `ExpenseCategorizer._clean_text`: lower-case, replace non-alphanumeric
characters by spaces, collapse whitespace. -/
def cleanText (s : List Char) : List Char :=
  joinWords (splitWordsAux (subNonAlnum (s.map Char.toLower)) [])

/-- `p` occurs at the start of `s`. -/
def listPrefix : List Char → List Char → Bool
  | [], _ => true
  | _ :: _, [] => false
  | a :: as, b :: bs => a = b && listPrefix as bs

/-- `p` occurs as a contiguous substring of `s` (Python `p in s` on strings). -/
def listInfix (p : List Char) : List Char → Bool
  | [] => listPrefix p []
  | c :: rest => listPrefix p (c :: rest) || listInfix p rest

/-- `ExpenseCategorizer.TRAINING_DATA`, in source (dict-insertion) iteration order. -/
def TRAINING_DATA : List (String × List String) :=
  [ ("Food & Dining",
      ["restaurant", "pizza", "burger", "coffee", "cafe", "lunch", "dinner",
       "breakfast", "groceries", "supermarket", "food", "meal", "snack",
       "bakery", "swiggy", "zomato", "ubereats", "doordash", "mcdonalds",
       "starbucks", "dominos", "kfc", "subway", "tea", "juice", "ice cream",
       "food delivery", "takeout", "dine", "eating out", "fast food"]),
    ("Transport",
      ["uber", "lyft", "ola", "taxi", "cab", "bus", "train", "metro",
       "fuel", "petrol", "gas", "diesel", "parking", "toll", "car",
       "bike", "motorcycle", "airline", "flight", "airport", "travel",
       "commute", "ride", "transport", "auto", "rickshaw", "fare"]),
    ("Entertainment",
      ["movie", "cinema", "netflix", "spotify", "amazon prime", "disney",
       "hulu", "youtube", "gaming", "games", "concert", "show", "party",
       "club", "bar", "pub", "theatre", "music", "books", "magazine",
       "subscription", "streaming", "fun", "leisure", "hobby"]),
    ("Utilities",
      ["electricity", "electric bill", "water bill", "gas bill", "internet",
       "wifi", "broadband", "phone bill", "mobile recharge", "cable",
       "utility", "rent", "housing", "maintenance", "repair", "plumber",
       "electrician", "home", "apartment", "heating", "cooling"]),
    ("Shopping",
      ["amazon", "flipkart", "walmart", "target", "mall", "clothes",
       "shoes", "electronics", "gadget", "phone", "laptop", "furniture",
       "home decor", "appliance", "gift", "present", "shopping", "store",
       "retail", "online shopping", "fashion", "accessories", "jewelry"]),
    ("Healthcare",
      ["hospital", "doctor", "clinic", "medicine", "pharmacy", "medical",
       "health", "dental", "dentist", "eye", "optician", "glasses",
       "prescription", "therapy", "gym", "fitness", "workout", "yoga",
       "insurance", "health insurance", "checkup", "lab", "test"]),
    ("Education",
      ["school", "college", "university", "course", "tuition", "books",
       "textbook", "udemy", "coursera", "learning", "training", "workshop",
       "seminar", "certification", "exam", "study", "education", "class",
       "tutorial", "online course", "degree", "diploma"]),
    ("Savings",
      ["savings", "investment", "mutual fund", "stock", "fixed deposit",
       "fd", "rd", "recurring deposit", "retirement", "pension", "emi",
       "loan payment", "sip", "bonds", "gold", "crypto", "bitcoin"]),
    ("Salary",
      ["salary", "paycheck", "wages", "income", "pay", "compensation",
       "bonus", "commission", "earnings"]),
    ("Freelance",
      ["freelance", "consulting", "contract", "project payment", "gig",
       "side hustle", "client payment", "invoice", "hourly"]),
    ("Investment",
      ["dividend", "interest", "returns", "capital gains", "profit",
       "investment income", "rental income", "passive income"]),
    ("Gift",
      ["gift", "present", "birthday money", "cash gift", "received",
       "wedding gift", "bonus gift"]) ]

/-- All (category, keyword) pairs of the table, in iteration order. -/
def trainingPairs : List (String × String) :=
  TRAINING_DATA.flatMap fun p => p.2.map fun k => (p.1, k)

/-- `ExpenseCategorizer._keyword_match` scan: for each category in table order,
return it as soon as one of its keywords (lower-cased) occurs as a substring of
the (lower-cased) text. -/
def keywordMatchAux : List (String × List String) → List Char → Option String
  | [], _ => none
  | (cat, kws) :: rest, t =>
    if kws.any (fun kw => listInfix (kw.data.map Char.toLower) t) then some cat
    else keywordMatchAux rest t

/-- `ExpenseCategorizer._keyword_match`. -/
def keywordMatch (text : List Char) : Option String :=
  keywordMatchAux TRAINING_DATA (text.map Char.toLower)

/-- The keyword-override policy as the spec words it: the first category in
table iteration order whose keyword list contains a keyword occurring as a
substring of the normalized text. -/
def firstMatchSpec (text : List Char) : Option String :=
  (TRAINING_DATA.find? fun p =>
      p.2.any fun kw => listInfix (kw.data.map Char.toLower) (text.map Char.toLower)).map
    (·.1)

/-- `not description or not description.strip()`: empty or all-whitespace. -/
def isBlank (s : String) : Bool := s.data.all isWs

/-- `ExpenseCategorizer.predict`.  The statistical sklearn fallback (TF-IDF +
multinomial naive Bayes), together with its absent-model and exception paths,
is abstracted as the `model` argument: it is only reached when no keyword
matches. -/
def predict (model : List Char → String × ℚ) (description : String) : String × ℚ :=
  if isBlank description then ("Other", 0)
  else
    let cleaned := cleanText description.data
    match keywordMatch cleaned with
    | some cat => (cat, 95 / 100)
    | none => model cleaned

/-- A trivial instance of the statistical-fallback abstraction, used to build
concrete witnesses (it stands for `self.model = None`). -/
def model0 : List Char → String × ℚ := fun _ => ("Other", 0)

/-- The per-pair check of the C1 analysis: a table keyword is not blank and
the keyword scan succeeds on its cleaned text. -/
def pairPred : String × String → Bool :=
  fun q => !(isBlank q.2) && (keywordMatch (cleanText q.2.data)).isSome

end Categorizer

namespace Predictor

/-- One row of the `get_monthly_trends` DataFrame: the monthly aggregate of a
(user, month), rows ordered chronologically ascending (the SQL orders by
month).  The month key itself is not needed by the forecast logic. -/
structure Agg where
  income : ℚ
  expense : ℚ
deriving DecidableEq

/-- The dict returned by `ExpensePredictor.predict_next_month_expenses`.
`predicted_savings` is an `Option` because the insufficient-data return of the
source omits that key.  The human-readable `message` field is presentation-only
string formatting and is not modelled. -/
structure Prediction where
  predicted_expense : ℚ
  predicted_income : ℚ
  predicted_savings : Option ℚ
  confidence : String
  trend : String
deriving DecidableEq

/-- `np.array([1, 1.5, 2, 2.5, 3, 3.5])`. -/
def weightsRamp : List ℚ := [1, 3/2, 2, 5/2, 3, 7/2]

/-- Σ aᵢ·bᵢ. -/
def dot : List ℚ → List ℚ → ℚ
  | [], _ => 0
  | _, [] => 0
  | a :: as, b :: bs => a * b + dot as bs

/-- Arithmetic mean (pandas `.mean()` of a non-empty series). -/
def mean (l : List ℚ) : ℚ := l.sum / l.length

/-- Python `round(x, 2)`.  Modelled with Mathlib's `round` (half away from
zero for positive halves); Python rounds half to even, but the two agree on
every value considered here (no exact .005 ties arise). -/
def round2 (q : ℚ) : ℚ := (round (q * 100) : ℤ) / 100

/-- The trend comparison of `predict_next_month_expenses`:
`recent > older*1.1 → 'increasing'`, `recent < older*0.9 → 'decreasing'`,
else `'stable'`.  The literals 1.1 and 0.9 are modelled exactly as 11/10 and
9/10 (the source compares IEEE doubles; the comparisons agree on all values
considered here). -/
def trendOf (recent older : ℚ) : String :=
  if older * (11/10) < recent then "increasing"
  else if recent < older * (9/10) then "decreasing"
  else "stable"

/-- `ExpensePredictor.predict_next_month_expenses`, as a function of the
trailing (≤ 6) monthly aggregates pulled from storage.  `np.average(v, w)`
is Σwᵢvᵢ / Σwᵢ; the weight vector is the ramp truncated from the front to the
row count.  pandas `tail(3)` / `head(3)` are the last / first three rows. -/
def predictNextMonth (hist : List Agg) : Prediction :=
  if hist.length < 2 then
    { predicted_expense := 0, predicted_income := 0, predicted_savings := none,
      confidence := "low", trend := "insufficient_data" }
  else
    let ws := weightsRamp.take hist.length
    let expenses := hist.map (·.expense)
    let incomes := hist.map (·.income)
    let pe := dot ws expenses / ws.sum
    let pi := dot ws incomes / ws.sum
    let trend :=
      if 3 ≤ hist.length then
        trendOf (mean (expenses.drop (expenses.length - 3))) (mean (expenses.take 3))
      else "insufficient_data"
    let conf :=
      if 5 ≤ hist.length then "high" else if 3 ≤ hist.length then "medium" else "low"
    { predicted_expense := round2 pe, predicted_income := round2 pi,
      predicted_savings := some (round2 (pi - pe)), confidence := conf, trend := trend }

/-- One row of `get_budget_status` as consumed by `detect_overspending`. -/
structure BudgetItem where
  name : String
  icon : String
  monthly_limit : ℚ
  spent : ℚ
  percentage : ℚ

/-- One row of the current-month `get_category_breakdown`. -/
structure BreakItem where
  name : String
  icon : String
  total : ℚ

/-- An alert dict of `detect_overspending` (the source key `'type'` is the
field `type`; the formatted `message` string is not modelled). -/
structure Alert where
  category : String
  icon : String
  type : String
  severity : String
  percentage : ℚ

/-- Pass 1 of `detect_overspending`: one budget alert per budget-status row,
in row order. -/
def budgetAlerts (items : List BudgetItem) : List Alert :=
  items.filterMap fun it =>
    if 100 ≤ it.percentage then
      some { category := it.name, icon := it.icon, type := "budget_exceeded",
             severity := "high", percentage := it.percentage }
    else if 80 ≤ it.percentage then
      some { category := it.name, icon := it.icon, type := "budget_warning",
             severity := "medium", percentage := it.percentage }
    else none

/-- Pass 2 of `detect_overspending`: append a `high_spending` alert for each
breakdown row whose total exceeds half the average monthly expense, unless the
live alert list already holds an alert for that category name. -/
def pass2 (avg : ℚ) : List BreakItem → List Alert → List Alert
  | [], acc => acc
  | cat :: rest, acc =>
    if avg * (1/2) < cat.total then
      if (acc.map (·.category)).contains cat.name then pass2 avg rest acc
      else
        pass2 avg rest
          (acc ++ [{ category := cat.name, icon := cat.icon, type := "high_spending",
                     severity := "low", percentage := 0 }])
    else pass2 avg rest acc

/-- `ExpensePredictor.detect_overspending`, as a function of its three storage
queries: the budget-status rows, the current-month category breakdown, and the
expense column of the trailing 3-month trends (empty list = empty DataFrame,
in which case pass 2 is skipped). -/
def detectOverspending (budgetStatus : List BudgetItem) (currentBreakdown : List BreakItem)
    (histExpenses : List ℚ) : List Alert :=
  let alerts := budgetAlerts budgetStatus
  if histExpenses.isEmpty then alerts
  else pass2 (mean histExpenses) currentBreakdown alerts

end Predictor

namespace Storage

/-- A row of the `categories` table (the unused `color` column is not
modelled); `user = none` is a NULL `user_id`, i.e. a global category. -/
structure Category where
  id : ℕ
  name : String
  type : String
  icon : String
  user : Option ℕ
deriving DecidableEq

/-- A row of the `transactions` table.  `date` is an ISO `YYYY-MM-DD` string,
so SQL date comparison is string comparison and `strftime('%Y-%m', date)` is
the first seven characters.  Row ids and `created_at` are not modelled; list
position is insertion order. -/
structure Txn where
  amount : ℚ
  description : String
  category_id : ℕ
  transaction_type : String
  date : String
  user : ℕ
deriving DecidableEq

/-- A row of the `budgets` table (UNIQUE(category_id, user_id)). -/
structure Budget where
  category_id : ℕ
  user : ℕ
  monthly_limit : ℚ
deriving DecidableEq

/-- The storage state read and written by the components under verification.
The `users` and `settings` tables are not modelled: the assistant only reads a
setting (the remote API key), modelled as a parameter of `processMessage`. -/
structure DB where
  categories : List Category
  transactions : List Txn
  budgets : List Budget
deriving DecidableEq

/-- `strftime('%Y-%m', date)` on an ISO date string. -/
def monthOf (d : String) : String := d.take 7

/-- `(user_id = ? OR user_id IS NULL)`. -/
def visibleTo (uid : ℕ) (c : Category) : Bool := c.user == some uid || c.user == none

/-- `ORDER BY type, name` (SQLite binary text order; names are ASCII). -/
def catLe (a b : Category) : Bool :=
  if a.type = b.type then decide (a.name ≤ b.name) else decide (a.type < b.type)

def insertCatSorted (c : Category) : List Category → List Category
  | [] => [c]
  | d :: rest => if catLe c d then c :: d :: rest else d :: insertCatSorted c rest

def sortCats : List Category → List Category
  | [] => []
  | c :: rest => insertCatSorted c (sortCats rest)

/-- `DatabaseManager.get_categories`: the user-visible categories, optionally
filtered by type, ordered by (type, name). -/
def getCategories (db : DB) (category_type : Option String) (uid : ℕ) : List Category :=
  sortCats ((db.categories.filter (visibleTo uid)).filter fun c =>
    match category_type with
    | none => true
    | some t => c.type == t)

/-- `DatabaseManager.get_category_by_name`: first table row (insertion order;
the SQL has no ORDER BY) with the given name that is visible to the user.
Note: no filter on the category type. -/
def getCategoryByName (db : DB) (name : String) (uid : ℕ) : Option Category :=
  db.categories.find? fun c => c.name == name && visibleTo uid c

/-- `DatabaseManager.add_transaction` (the returned row id is not modelled). -/
def addTransaction (db : DB) (amount : ℚ) (description : String) (category_id : ℕ)
    (transaction_type : String) (transaction_date : String) (uid : ℕ) : DB :=
  { db with transactions :=
      db.transactions ++ [⟨amount, description, category_id, transaction_type,
                           transaction_date, uid⟩] }

/-- `DatabaseManager.set_budget`: `INSERT ... ON CONFLICT(category_id, user_id)
DO UPDATE SET monthly_limit = ?` — update the (unique) conflicting row if one
exists, else append a new row. -/
def setBudget (db : DB) (category_id uid : ℕ) (monthly_limit : ℚ) : DB :=
  if db.budgets.any (fun b => b.category_id == category_id && b.user == uid) then
    { db with budgets := db.budgets.map fun b =>
        if b.category_id == category_id && b.user == uid then
          { b with monthly_limit := monthly_limit }
        else b }
  else { db with budgets := db.budgets ++ [⟨category_id, uid, monthly_limit⟩] }

/-- The budget row joined by `get_budget_status`
(`LEFT JOIN budgets b ON c.id = b.category_id AND b.user_id = ?`); the UNIQUE
constraint makes the first match the only one. -/
def findBudget (db : DB) (cid uid : ℕ) : Option ℚ :=
  (db.budgets.find? fun b => b.category_id == cid && b.user == uid).map (·.monthly_limit)

/-- `COALESCE(SUM(t.amount), 0)` over the user's expense transactions of one
category in one month. -/
def spentIn (db : DB) (cid uid : ℕ) (month : String) : ℚ :=
  ((db.transactions.filter fun t =>
      t.category_id == cid && t.transaction_type == "expense" && t.user == uid &&
        monthOf t.date == month).map (·.amount)).sum

/-- A row of `get_budget_status` (the unused `color` column is not modelled). -/
structure BudgetStatusItem where
  id : ℕ
  name : String
  icon : String
  monthly_limit : ℚ
  spent : ℚ
  remaining : ℚ
  percentage : ℚ
deriving DecidableEq

/-- `DatabaseManager.get_budget_status`: one row per user-visible expense
category that has a budget row (`HAVING b.monthly_limit IS NOT NULL`), with
`remaining = limit - spent` and `percentage = spent/limit*100` (0 for a
non-positive limit).  The SQL `GROUP BY c.id` row order is modelled as the
category-table order. -/
def getBudgetStatus (db : DB) (uid : ℕ) (month : String) : List BudgetStatusItem :=
  db.categories.filterMap fun c =>
    if visibleTo uid c && c.type == "expense" then
      match findBudget db c.id uid with
      | some lim =>
        let spent := spentIn db c.id uid month
        some ⟨c.id, c.name, c.icon, lim, spent, lim - spent,
              if 0 < lim then spent / lim * 100 else 0⟩
      | none => none
    else none

/-- `income`/`expense`/`balance` of `DatabaseManager.get_summary`. -/
structure Summary where
  income : ℚ
  expense : ℚ
  balance : ℚ
deriving DecidableEq

/-- `DatabaseManager.get_summary` over an optional date window. -/
def getSummary (db : DB) (uid : ℕ) (startDate endDate : Option String) : Summary :=
  let ts := db.transactions.filter fun t =>
    t.user == uid &&
      (match startDate with | none => true | some s => decide (s ≤ t.date)) &&
      (match endDate with | none => true | some e => decide (t.date ≤ e))
  let inc := ((ts.filter fun t => t.transaction_type == "income").map (·.amount)).sum
  let exp := ((ts.filter fun t => t.transaction_type == "expense").map (·.amount)).sum
  ⟨inc, exp, inc - exp⟩

/-- A row of `get_category_breakdown`. -/
structure BreakdownRow where
  id : ℕ
  name : String
  icon : String
  total : ℚ
  count : ℕ
deriving DecidableEq

def insertRowByTotal (r : BreakdownRow) : List BreakdownRow → List BreakdownRow
  | [] => [r]
  | s :: rest => if s.total < r.total then r :: s :: rest else s :: insertRowByTotal r rest

/-- `ORDER BY total DESC`. -/
def sortRowsByTotalDesc : List BreakdownRow → List BreakdownRow
  | [] => []
  | r :: rest => insertRowByTotal r (sortRowsByTotalDesc rest)

/-- `DatabaseManager.get_category_breakdown`: per-category totals and counts of
the user's transactions of the given type from an optional start date, for
categories with at least one matching transaction (inner JOIN), ordered by
total descending. -/
def getCategoryBreakdown (db : DB) (uid : ℕ) (startDate : Option String)
    (transaction_type : String) : List BreakdownRow :=
  sortRowsByTotalDesc <| db.categories.filterMap fun c =>
    let ts := db.transactions.filter fun t =>
      t.category_id == c.id && t.transaction_type == transaction_type && t.user == uid &&
        (match startDate with | none => true | some s => decide (s ≤ t.date))
    if ts.isEmpty then none
    else some ⟨c.id, c.name, c.icon, (ts.map (·.amount)).sum, ts.length⟩

def insertTxnByDateDesc (t : Txn) : List Txn → List Txn
  | [] => [t]
  | s :: rest => if s.date < t.date then t :: s :: rest else s :: insertTxnByDateDesc t rest

def sortTxnsByDateDesc : List Txn → List Txn
  | [] => []
  | t :: rest => insertTxnByDateDesc t (sortTxnsByDateDesc rest)

/-- `DatabaseManager.get_transactions` restricted to the filters the assistant
uses (user and limit): the user's transactions ordered by date descending,
ties by insertion order descending (`created_at DESC`). -/
def getTransactions (db : DB) (uid : ℕ) (limit : Option ℕ) : List Txn :=
  let l := sortTxnsByDateDesc (db.transactions.filter fun t => t.user == uid)
  match limit with
  | none => l
  | some n => l.take n

end Storage

namespace Assistant

open Storage

/-- `AIAssistant.greetings`, the fixed greeting templates. -/
def greetings : List String :=
  [ "Hello! 👋 I\u0027m your AI expense assistant. How can I help you today?",
    "Hi there! 💰 I\u0027m here to help manage your finances. What would you like to do?",
    "Hey! 🤖 Ready to help with your expenses. Just tell me what you need!" ]

/-- The alternatives of the first greeting pattern
`^(?:hi|hello|hey|hola|greetings)[\s!]*$`. -/
def salutations : List String := ["hi", "hello", "hey", "hola", "greetings"]

/-- `[\s!]*$`: only whitespace and exclamation marks up to the end. -/
def trailerOk (s : List Char) : Bool := s.all fun c => Categorizer.isWs c || c = '!'

/-- `^good\s+(?:morning|afternoon|evening)[\s!]*$`. -/
def goodMatch (m : List Char) : Bool :=
  if Categorizer.listPrefix "good".data m then
    let rest := m.drop 4
    if (rest.takeWhile Categorizer.isWs).isEmpty then false
    else
      let rest2 := rest.dropWhile Categorizer.isWs
      ["morning", "afternoon", "evening"].any fun w =>
        Categorizer.listPrefix w.data rest2 && trailerOk (rest2.drop w.data.length)
  else false

/-- `AIAssistant._match_intent(message, 'greeting')`: either anchored greeting
pattern, case-insensitively. -/
def greetingMatch (msg : String) : Bool :=
  let m := msg.data.map Char.toLower
  (salutations.any fun w =>
    Categorizer.listPrefix w.data m && trailerOk (m.drop w.data.length)) || goodMatch m

/-- The remaining intent matchers and entity extractors of
`AIAssistant._process_with_regex`, abstracted as oracles: each stands for the
regex searches of one intent group.  Theorems quantifying over `Oracles` hold
for every behaviour of those regexes.  `extractExpense`/`extractBudget` return
(amount, optional trailing text); `extractIncome` and `smartParse` default
their description (`or 'Income'` in the source), and `smartParse` also
classifies income vs expense by keyword. -/
structure Oracles where
  helpMatch : String → Bool
  thanksMatch : String → Bool
  extractExpense : String → Option (ℚ × Option String)
  extractIncome : String → Option (ℚ × String)
  balanceMatch : String → Bool
  spendingMatch : String → Bool
  recentMatch : String → Bool
  extractBudget : String → Option (ℚ × Option String)
  smartParse : String → Option (Bool × ℚ × String)

/-- The response/action dict of the assistant.  `response := none` stands for
a response text that is formatted from data at run time (string formatting is
not modelled); fixed template responses are carried verbatim.  The `data`
entry of the source dict is not modelled. -/
structure ChatResult where
  response : Option String
  action : String
deriving DecidableEq

/-- `self.categorizer.predict(description)` where the handlers may pass
`None`: `predict` returns ('Other', 0.0) for a falsy argument. -/
def predictOpt (model : List Char → String × ℚ) : Option String → String × ℚ
  | none => ("Other", 0)
  | some s => Categorizer.predict model s

/-- Python `needle in hay` on strings. -/
def containsSub (needle hay : String) : Bool := Categorizer.listInfix needle.data hay.data

def titleCaseAux : List Char → Bool → List Char
  | [], _ => []
  | c :: rest, start =>
    if c.isAlpha then (if start then c.toUpper else c.toLower) :: titleCaseAux rest false
    else c :: titleCaseAux rest true

/-- Python `str.title()` (ASCII). -/
def titleCase (s : String) : String := ⟨titleCaseAux s.data true⟩

/-- `description.title() if description else default`: a `None` or empty
description falls back to the default literal. -/
def titleOr (d : Option String) (dflt : String) : String :=
  match d with
  | none => dflt
  | some s => if s.data.isEmpty then dflt else titleCase s

/-- `AIAssistant._handle_add_expense`.  `Except.error` models a raised Python
exception: the fallback `next((c for c in categories if 'Other' in c['name']),
categories[0])` evaluates `categories[0]` eagerly and raises IndexError on an
empty category list.  Note the name lookup is not filtered by type. -/
def handleAddExpense (model : List Char → String × ℚ) (db : DB) (amount : ℚ)
    (description : Option String) (uid : ℕ) (today : String) :
    Except String (ChatResult × DB) :=
  let catName := (predictOpt model description).1
  let chosen : Except String Category :=
    match getCategoryByName db catName uid with
    | some c => .ok c
    | none =>
      match getCategories db (some "expense") uid with
      | [] => .error "IndexError"
      | c0 :: rest => .ok (((c0 :: rest).find? fun c => containsSub "Other" c.name).getD c0)
  match chosen with
  | .error e => .error e
  | .ok category =>
    .ok ({ response := none, action := "expense_added" },
         addTransaction db amount (titleOr description "Expense") category.id "expense"
           today uid)

/-- The income fallback of `_handle_add_income` (reached when the name lookup
finds nothing or a non-income category): on a salary-mentioning description,
`next((c for c in categories if 'Salary' in c['name']), categories[0])` —
whose eagerly evaluated `categories[0]` raises IndexError on an empty list —
else `categories[0] if categories else None`; `'salary' in
description.lower()` raises AttributeError on a `None` description. -/
def incomeFallbackCategory (db : DB) (uid : ℕ) (description : Option String) :
    Except String (Option Category) :=
  let cats := getCategories db (some "income") uid
  match description with
  | none => .error "AttributeError"
  | some d =>
    if containsSub "salary" ⟨d.data.map Char.toLower⟩ then
      match cats with
      | [] => .error "IndexError"
      | c0 :: rest => .ok (some (((c0 :: rest).find? fun c => containsSub "Salary" c.name).getD c0))
    else .ok cats.head?

/-- `AIAssistant._handle_add_income`: the name lookup is not filtered by type,
but a found category of non-income type is discarded in favour of the
fallback; a fallback result of `None` yields the error response instead of a
transaction. -/
def handleAddIncome (model : List Char → String × ℚ) (db : DB) (amount : ℚ)
    (description : Option String) (uid : ℕ) (today : String) :
    Except String (ChatResult × DB) :=
  let catName := (predictOpt model description).1
  let chosen : Except String (Option Category) :=
    match getCategoryByName db catName uid with
    | some c =>
      if c.type == "income" then .ok (some c) else incomeFallbackCategory db uid description
    | none => incomeFallbackCategory db uid description
  match chosen with
  | .error e => .error e
  | .ok none =>
    .ok ({ response := some "❌ Sorry, I couldn\u0027t find an income category. Please try again.",
           action := "error" }, db)
  | .ok (some category) =>
    .ok ({ response := none, action := "income_added" },
         addTransaction db amount (titleOr description "Income") category.id "income"
           today uid)

/-- First day of the month of an ISO date (`date.today().replace(day=1)`),
used only as a summary window bound. -/
def monthStart (today : String) : String := monthOf today ++ "-01"

/-- `AIAssistant._handle_check_balance`: reads the month and all-time
summaries; no write.  The formatted report text is not modelled. -/
def handleCheckBalance (db : DB) (uid : ℕ) (today : String) :
    Except String (ChatResult × DB) :=
  let _summary := getSummary db uid (some (monthStart today)) none
  let _overall := getSummary db uid none none
  .ok ({ response := none, action := "balance_checked" }, db)

/-- `AIAssistant._handle_check_spending`: reads the current-month breakdown; no
write.  The formatted report text is not modelled. -/
def handleCheckSpending (db : DB) (uid : ℕ) (today : String) :
    Except String (ChatResult × DB) :=
  let _breakdown := getCategoryBreakdown db uid (some (monthStart today)) "expense"
  .ok ({ response := none, action := "spending_checked" }, db)

/-- `AIAssistant._handle_recent_transactions`: reads the five most recent
transactions; no write.  The formatted report text is not modelled. -/
def handleRecentTransactions (db : DB) (uid : ℕ) : Except String (ChatResult × DB) :=
  let _txns := getTransactions db uid (some 5)
  .ok ({ response := none, action := "transactions_listed" }, db)

/-- `AIAssistant._handle_set_budget`: asks for a category when none was
extracted; else sets the budget on the first expense category whose name
contains the extracted text (case-insensitive). -/
def handleSetBudget (db : DB) (amount : ℚ) (category : Option String) (uid : ℕ) :
    Except String (ChatResult × DB) :=
  let cname := category.getD ""
  if cname.data.isEmpty then
    .ok ({ response := none, action := "need_category" }, db)
  else
    match (getCategories db (some "expense") uid).find? (fun c =>
        containsSub ⟨cname.data.map Char.toLower⟩ ⟨c.name.data.map Char.toLower⟩) with
    | none => .ok ({ response := none, action := "category_not_found" }, db)
    | some c => .ok ({ response := none, action := "budget_set" }, setBudget db c.id uid amount)

/-- `AIAssistant._get_help_response` (fixed template; carried as `none` here
because only its fixedness, not its text, is load-bearing for the claims —
the greeting templates, which a claim quotes, are carried verbatim). -/
def helpResult (db : DB) : Except String (ChatResult × DB) :=
  .ok ({ response := none, action := "help" }, db)

/-- `AIAssistant._process_with_regex`: the ordered deterministic dispatch.
Greeting is checked first with the concrete matcher `greetingMatch`; the
remaining groups go through the `Oracles` abstraction in source order. -/
def processWithRegex (o : Oracles) (model : List Char → String × ℚ) (db : DB)
    (msg : String) (uid : ℕ) (today : String) (choice : ℕ) :
    Except String (ChatResult × DB) :=
  if greetingMatch msg then
    .ok ({ response := some (greetings.getD (choice % greetings.length) ""),
           action := "greeting" }, db)
  else if o.helpMatch msg then helpResult db
  else if o.thanksMatch msg then
    .ok ({ response := some "You\u0027re welcome! 😊 Let me know if you need anything else!",
           action := "thanks" }, db)
  else
    match o.extractExpense msg with
    | some (amt, desc) => handleAddExpense model db amt desc uid today
    | none =>
      match o.extractIncome msg with
      | some (amt, desc) => handleAddIncome model db amt (some desc) uid today
      | none =>
        if o.balanceMatch msg then handleCheckBalance db uid today
        else if o.spendingMatch msg then handleCheckSpending db uid today
        else if o.recentMatch msg then handleRecentTransactions db uid
        else
          match o.extractBudget msg with
          | some (amt, cat) => handleSetBudget db amt cat uid
          | none =>
            match o.smartParse msg with
            | some (isIncome, amt, desc) =>
              if isIncome then handleAddIncome model db amt (some desc) uid today
              else handleAddExpense model db amt (some desc) uid today
            | none => .ok ({ response := none, action := "fallback" }, db)

/-- The JSON fragment `{action, amount, description}` the remote reply may
embed.  A `none` field models a missing key (whose subscript raises KeyError,
caught by the inner `except`). -/
structure GeminiJson where
  action : Option String
  amount : Option ℚ
  description : Option String

/-- `AIAssistant._process_with_gemini`, as a function of the remote call
outcome:  `remote = none` models `generate_content` raising (error/timeout),
which the outer `except` turns into the regex path; `some text` is a reply,
from which `extract` models the regex-plus-`json.loads` fragment extraction
(`none` = no fragment or unparseable JSON).  A dispatched handler call sits
inside the inner `try`, so its exception also yields the plain chat reply. -/
def processWithGemini (o : Oracles) (model : List Char → String × ℚ)
    (extract : String → Option GeminiJson) (db : DB) (msg : String) (uid : ℕ)
    (today : String) (choice : ℕ) (remote : Option String) :
    Except String (ChatResult × DB) :=
  match remote with
  | none => processWithRegex o model db msg uid today choice
  | some text =>
    let chat : Except String (ChatResult × DB) :=
      .ok ({ response := some text, action := "chat" }, db)
    match extract text with
    | none => chat
    | some js =>
      if js.action == some "add_expense" then
        match js.amount, js.description with
        | some amt, some desc =>
          match handleAddExpense model db amt (some desc) uid today with
          | .ok r => .ok r
          | .error _ => chat
        | _, _ => chat
      else if js.action == some "add_income" then
        match js.amount, js.description with
        | some amt, some desc =>
          match handleAddIncome model db amt (some desc) uid today with
          | .ok r => .ok r
          | .error _ => chat
        | _, _ => chat
      else chat

/-- Python `message.strip().lower()`. -/
def stripLower (s : String) : String :=
  ⟨(((s.data.dropWhile Categorizer.isWs).reverse.dropWhile Categorizer.isWs).reverse).map
    Char.toLower⟩

/-- `AIAssistant.process_message`: normalize the message, then the remote path
when a remote model is configured (`gemini = some remote`), else the
deterministic regex path. -/
def processMessage (o : Oracles) (model : List Char → String × ℚ)
    (extract : String → Option GeminiJson) (db : DB) (msg : String) (uid : ℕ)
    (today : String) (choice : ℕ) (gemini : Option (Option String)) :
    Except String (ChatResult × DB) :=
  let m := stripLower msg
  match gemini with
  | none => processWithRegex o model db m uid today choice
  | some remote => processWithGemini o model extract db m uid today choice remote

end Assistant

namespace Fixtures

/-- Three monthly aggregates with expense totals 100, 200, 300 (chronological). -/
def histC2 : List Predictor.Agg := [⟨0, 100⟩, ⟨0, 200⟩, ⟨0, 300⟩]

/-- A single monthly aggregate (fewer than two data points). -/
def histC3 : List Predictor.Agg := [⟨0, 100⟩]

/-- Six months of expenses with earliest-3 mean 100 and recent-3 mean 110. -/
def histStable : List Predictor.Agg :=
  [⟨0, 100⟩, ⟨0, 100⟩, ⟨0, 100⟩, ⟨0, 110⟩, ⟨0, 110⟩, ⟨0, 110⟩]

/-- Six months of expenses with earliest-3 mean 100 and recent-3 mean 111. -/
def histIncr : List Predictor.Agg :=
  [⟨0, 100⟩, ⟨0, 100⟩, ⟨0, 100⟩, ⟨0, 111⟩, ⟨0, 111⟩, ⟨0, 111⟩]

/-- One budget-status row at 150% of its limit. -/
def b6 : List Predictor.BudgetItem := [⟨"Food & Dining", "🍔", 100, 150, 150⟩]

/-- A current-month breakdown touching the budget-alerted category and one more. -/
def br6 : List Predictor.BreakItem := [⟨"Food & Dining", "🍔", 150⟩, ⟨"Transport", "🚗", 90⟩]

/-- An empty storage state. -/
def db0 : Storage.DB := ⟨[], [], []⟩

/-- One user-owned expense category "Other" and one income category "Salary". -/
def dbC4 : Storage.DB :=
  { categories := [⟨1, "Other", "expense", "📦", some 7⟩,
                   ⟨2, "Salary", "income", "💵", some 7⟩],
    transactions := [], budgets := [] }

/-- One user-owned expense category and no income category at all. -/
def dbC10 : Storage.DB :=
  { categories := [⟨1, "Other", "expense", "📦", some 7⟩],
    transactions := [], budgets := [] }

/-- One expense category with one 50-unit expense in 2025-01 and no budget yet. -/
def dbC8 : Storage.DB :=
  { categories := [⟨1, "Food & Dining", "expense", "🍔", some 7⟩],
    transactions := [⟨50, "Lunch", 1, "expense", "2025-01-10", 7⟩],
    budgets := [] }

/-- Oracles on which no non-greeting intent pattern matches and no entity is
extracted. -/
def oracles0 : Assistant.Oracles :=
  ⟨fun _ => false, fun _ => false, fun _ => none, fun _ => none,
   fun _ => false, fun _ => false, fun _ => false, fun _ => none, fun _ => none⟩

/-- A remote-reply extraction in which `json.loads` fails on every fragment. -/
def extract0 : String → Option Assistant.GeminiJson := fun _ => none

end Fixtures

/-! ## Helper lemmas -/

theorem Categorizer.keywordMatchAux_eq_find? (table : List (String × List String))
    (t : List Char) :
    keywordMatchAux table t =
      (table.find? fun p => p.2.any fun kw => listInfix (kw.data.map Char.toLower) t).map
        (·.1) := by
  induction table with
  | nil => rfl
  | cons hd tl ih =>
    obtain ⟨cat, kws⟩ := hd
    by_cases h : (kws.any fun kw => listInfix (kw.data.map Char.toLower) t) = true
    · simp [keywordMatchAux, List.find?, h]
    · simp only [Bool.not_eq_true] at h
      simp [keywordMatchAux, List.find?, h, ih]

theorem Categorizer.keywordMatch_eq_firstMatchSpec (t : List Char) :
    keywordMatch t = firstMatchSpec t := by
  rw [keywordMatch, firstMatchSpec, keywordMatchAux_eq_find?]

theorem Categorizer.predict_eq_of_match (model : List Char → String × ℚ) (d c : String)
    (hb : isBlank d = false) (hm : keywordMatch (cleanText d.data) = some c) :
    predict model d = (c, 95 / 100) := by
  unfold predict
  rw [hb]
  simp [hm]

/-! ## C2 -/

/-- C2: counterexample.  On monthly expenses [100, 200, 300] the code weights
them with the ramp prefix [1, 1.5, 2] (not [2, 2.5, 3]), so the predicted
expense is 2000/9 ≈ 222.22 — not ≈ 213.3 as the claim computes. -/
theorem C2_counterexample :
    (Predictor.predictNextMonth Fixtures.histC2).predicted_expense = 11111 / 50 ∧
    ¬((213 : ℚ) ≤ (Predictor.predictNextMonth Fixtures.histC2).predicted_expense ∧
      (Predictor.predictNextMonth Fixtures.histC2).predicted_expense < 214) := by
  have h : (Predictor.predictNextMonth Fixtures.histC2).predicted_expense = 11111 / 50 := by
    simp only [Predictor.predictNextMonth, Fixtures.histC2, Predictor.weightsRamp,
      Predictor.dot, Predictor.mean, Predictor.trendOf, Predictor.round2]
    norm_num [round_eq]
  refine ⟨h, ?_⟩
  rw [h]
  norm_num

/-- C2 (amended): with exactly 3 monthly aggregates the weight vector is the
ramp truncated from the front, [1, 1.5, 2] renormalized (the most recent month
still receiving the highest of the three weights), so for expenses
[100, 200, 300] the predicted expense is (1·100 + 1.5·200 + 2·300)/4.5 = 2000/9,
rounded to 222.22 — not ≈ 213.3. -/
theorem C2_amended :
    Predictor.weightsRamp.take 3 = [1, 3/2, 2] ∧
    (Predictor.predictNextMonth Fixtures.histC2).predicted_expense =
      Predictor.round2 ((1 * 100 + (3/2) * 200 + 2 * 300) / (1 + 3/2 + 2)) ∧
    (Predictor.predictNextMonth Fixtures.histC2).predicted_expense = 11111 / 50 := by
  refine ⟨by norm_num [Predictor.weightsRamp], ?_, ?_⟩
  · simp only [Predictor.predictNextMonth, Fixtures.histC2, Predictor.weightsRamp,
      Predictor.dot, Predictor.mean, Predictor.trendOf, Predictor.round2]
    norm_num
  · simp only [Predictor.predictNextMonth, Fixtures.histC2, Predictor.weightsRamp,
      Predictor.dot, Predictor.mean, Predictor.trendOf, Predictor.round2]
    norm_num [round_eq]

/-! ## C3 -/

/-- C3: counterexample.  With a single monthly aggregate the sentinel result
does not carry `predicted_savings = 0`: the source dict omits the key
(modelled as `none`). -/
theorem C3_counterexample :
    (Predictor.predictNextMonth Fixtures.histC3).predicted_savings = none ∧
    (Predictor.predictNextMonth Fixtures.histC3).predicted_savings ≠ some 0 := by
  constructor
  · simp [Predictor.predictNextMonth, Fixtures.histC3]
  · simp [Predictor.predictNextMonth, Fixtures.histC3]

/-- C3 (amended): for every history with fewer than 2 monthly aggregates,
`predict_next_month_expenses` returns the sentinel with predicted expense 0,
predicted income 0, confidence "low", trend "insufficient_data" — and with the
`predicted_savings` key absent (`none`), not 0. -/
theorem C3_amended (hist : List Predictor.Agg) (h : hist.length < 2) :
    Predictor.predictNextMonth hist =
      { predicted_expense := 0, predicted_income := 0, predicted_savings := none,
        confidence := "low", trend := "insufficient_data" } := by
  rw [Predictor.predictNextMonth, if_pos h]

/-- C3 witness: the amended theorem applied to the empty history. -/
theorem C3_amended_witness :
    Predictor.predictNextMonth [] =
      { predicted_expense := 0, predicted_income := 0, predicted_savings := none,
        confidence := "low", trend := "insufficient_data" } :=
  C3_amended [] (by decide)

/-! ## C7 -/

/-- C7: with recent-3 mean 110 and earliest-3 mean 100 the trend is "stable"
(the boundary 110 = 100·1.1 does not trigger "increasing": strict `>`); with
recent-3 mean 111 it is "increasing", and in general any recent mean strictly
above 110 against an older mean of 100 is classified "increasing". -/
theorem C7_trend_boundary :
    (Predictor.predictNextMonth Fixtures.histStable).trend = "stable" ∧
    (Predictor.predictNextMonth Fixtures.histIncr).trend = "increasing" ∧
    ∀ r : ℚ, 110 < r → Predictor.trendOf r 100 = "increasing" := by
  refine ⟨?_, ?_, ?_⟩
  · simp only [Predictor.predictNextMonth, Fixtures.histStable, Predictor.weightsRamp,
      Predictor.dot, Predictor.mean, Predictor.trendOf, Predictor.round2]
    norm_num
  · simp only [Predictor.predictNextMonth, Fixtures.histIncr, Predictor.weightsRamp,
      Predictor.dot, Predictor.mean, Predictor.trendOf, Predictor.round2]
    norm_num
  · intro r hr
    unfold Predictor.trendOf
    rw [if_pos (by linarith)]

/-- C7 witness: the strict-boundary clause at recent mean 111. -/
theorem C7_trend_boundary_witness :
    (110 : ℚ) < 111 ∧ Predictor.trendOf 111 100 = "increasing" :=
  ⟨by norm_num, C7_trend_boundary.2.2 111 (by norm_num)⟩

/-! ## C6 -/

theorem Predictor.pass2_structure (avg : ℚ) (br : List BreakItem) :
    ∀ acc : List Alert, ∃ extra, pass2 avg br acc = acc ++ extra ∧
      ∀ a ∈ extra, a.type = "high_spending" ∧ a.category ∉ acc.map (·.category) := by
  induction br with
  | nil => exact fun acc => ⟨[], by simp [pass2]⟩
  | cons cat rest ih =>
    intro acc
    by_cases hf : avg * (1/2) < cat.total
    · by_cases hc : (acc.map (·.category)).contains cat.name
      · obtain ⟨extra, he, hp⟩ := ih acc
        exact ⟨extra, by rw [pass2, if_pos hf, if_pos hc]; exact he, hp⟩
      · set na : Alert := { category := cat.name, icon := cat.icon, type := "high_spending",
                            severity := "low", percentage := 0 } with hna
        obtain ⟨extra, he, hp⟩ := ih (acc ++ [na])
        refine ⟨na :: extra, ?_, ?_⟩
        · rw [pass2, if_pos hf, if_neg hc, he]
          simp
        · intro a ha
          rcases List.mem_cons.mp ha with h | h
          · subst h
            refine ⟨rfl, ?_⟩
            intro hmem
            exact hc (by simpa [hna] using hmem)
          · obtain ⟨ht, hnm⟩ := hp a h
            refine ⟨ht, fun hmem => hnm ?_⟩
            simp only [List.map_append]
            exact List.mem_append_left _ hmem
    · obtain ⟨extra, he, hp⟩ := ih acc
      exact ⟨extra, by rw [pass2, if_neg hf]; exact he, hp⟩

theorem Predictor.pass2_nodup (avg : ℚ) (br : List BreakItem) :
    ∀ acc : List Alert, ((acc.map (·.category)).Nodup) →
      ((pass2 avg br acc).map (·.category)).Nodup := by
  induction br with
  | nil => intro acc h; simpa [pass2] using h
  | cons cat rest ih =>
    intro acc hnd
    by_cases hf : avg * (1/2) < cat.total
    · by_cases hc : (acc.map (·.category)).contains cat.name
      · rw [pass2, if_pos hf, if_pos hc]; exact ih acc hnd
      · rw [pass2, if_pos hf, if_neg hc]
        apply ih
        simp only [List.map_append, List.map_cons, List.map_nil]
        rw [List.nodup_append]
        refine ⟨hnd, List.nodup_singleton _, ?_⟩
        intro x hx
        simp only [List.mem_singleton]
        intro hxe
        subst hxe
        exact hc (by simpa using hx)
    · rw [pass2, if_neg hf]; exact ih acc hnd

theorem Predictor.budgetAlerts_cat_sublist (items : List BudgetItem) :
    ((budgetAlerts items).map (·.category)).Sublist (items.map (·.name)) := by
  induction items with
  | nil => simp [budgetAlerts]
  | cons it rest ih =>
    by_cases h1 : (100:ℚ) ≤ it.percentage
    · have he : budgetAlerts (it :: rest) =
          { category := it.name, icon := it.icon, type := "budget_exceeded",
            severity := "high", percentage := it.percentage } :: budgetAlerts rest := by
        simp [budgetAlerts, List.filterMap_cons, h1]
      rw [he, List.map_cons, List.map_cons]
      exact List.Sublist.cons₂ _ ih
    · by_cases h2 : (80:ℚ) ≤ it.percentage
      · have he : budgetAlerts (it :: rest) =
            { category := it.name, icon := it.icon, type := "budget_warning",
              severity := "medium", percentage := it.percentage } :: budgetAlerts rest := by
          simp [budgetAlerts, List.filterMap_cons, h1, h2]
        rw [he, List.map_cons, List.map_cons]
        exact List.Sublist.cons₂ _ ih
      · have he : budgetAlerts (it :: rest) = budgetAlerts rest := by
          simp [budgetAlerts, List.filterMap_cons, h1, h2]
        rw [he, List.map_cons]
        exact List.Sublist.cons _ ih

/-- C6: for every budget status, breakdown and trailing-expense history (with
pairwise distinct budget-status category names), `detect_overspending` returns
the pass-1 budget alerts first, followed only by pass-2 "high_spending" alerts
whose categories carry no pass-1 budget alert, and the whole list has at most
one alert per category name. -/
theorem C6_alert_dedup (b : List Predictor.BudgetItem) (br : List Predictor.BreakItem)
    (hs : List ℚ) (hnd : (b.map (·.name)).Nodup) :
    ∃ extra, Predictor.detectOverspending b br hs = Predictor.budgetAlerts b ++ extra ∧
      (∀ a ∈ extra, a.type = "high_spending" ∧
        a.category ∉ (Predictor.budgetAlerts b).map (·.category)) ∧
      ((Predictor.detectOverspending b br hs).map (·.category)).Nodup := by
  have hba : ((Predictor.budgetAlerts b).map (·.category)).Nodup :=
    (Predictor.budgetAlerts_cat_sublist b).nodup hnd
  by_cases he : hs.isEmpty
  · refine ⟨[], ?_, by simp, ?_⟩
    · simp [Predictor.detectOverspending, he]
    · simpa [Predictor.detectOverspending, he] using hba
  · obtain ⟨extra, heq, hp⟩ :=
      Predictor.pass2_structure (Predictor.mean hs) br (Predictor.budgetAlerts b)
    have hres : Predictor.detectOverspending b br hs =
        Predictor.pass2 (Predictor.mean hs) br (Predictor.budgetAlerts b) := by
      simp [Predictor.detectOverspending, he]
    refine ⟨extra, by rw [hres, heq], hp, ?_⟩
    rw [hres]
    exact Predictor.pass2_nodup (Predictor.mean hs) br (Predictor.budgetAlerts b) hba

/-- C6 witness: one over-limit budget category and a breakdown that would also
flag it in pass 2 plus a second, unbudgeted category. -/
theorem C6_alert_dedup_witness :
    ∃ extra, Predictor.detectOverspending Fixtures.b6 Fixtures.br6 [100] =
        Predictor.budgetAlerts Fixtures.b6 ++ extra ∧
      (∀ a ∈ extra, a.type = "high_spending" ∧
        a.category ∉ (Predictor.budgetAlerts Fixtures.b6).map (·.category)) ∧
      ((Predictor.detectOverspending Fixtures.b6 Fixtures.br6 [100]).map (·.category)).Nodup :=
  C6_alert_dedup Fixtures.b6 Fixtures.br6 [100] (by decide)

/-! ## C8 -/

theorem Storage.findBudget_upd (cid uid : ℕ) (L : ℚ) :
    ∀ l : List Budget, (l.any fun b => b.category_id == cid && b.user == uid) = true →
      ((l.map fun b => if b.category_id == cid && b.user == uid then
          { b with monthly_limit := L } else b).find? fun b =>
            b.category_id == cid && b.user == uid).map (·.monthly_limit) = some L := by
  intro l
  induction l with
  | nil => intro h; simp at h
  | cons b bs ih =>
    intro h
    by_cases hp : (b.category_id == cid && b.user == uid) = true
    · rw [List.map_cons, if_pos hp, List.find?_cons_of_pos _ (by exact hp)]
      simp
    · have h' : (bs.any fun b => b.category_id == cid && b.user == uid) = true := by
        simp only [List.any_cons, hp, Bool.false_or] at h
        exact h
      rw [List.map_cons, if_neg hp, List.find?_cons_of_neg _ (by exact hp)]
      exact ih h'

theorem Storage.findBudget_append (cid uid : ℕ) (L : ℚ) :
    ∀ l : List Budget, (l.any fun b => b.category_id == cid && b.user == uid) = false →
      ((l ++ [(⟨cid, uid, L⟩ : Budget)]).find? fun b =>
          b.category_id == cid && b.user == uid).map (·.monthly_limit) = some L := by
  intro l
  induction l with
  | nil =>
    intro _
    rw [List.nil_append, List.find?_cons_of_pos _ (by simp)]
    simp
  | cons b bs ih =>
    intro h
    simp only [List.any_cons, Bool.or_eq_false_iff] at h
    rw [List.cons_append, List.find?_cons_of_neg _ (by simp [h.1])]
    exact ih h.2

theorem Storage.findBudget_setBudget (db : DB) (cid uid : ℕ) (L : ℚ) :
    findBudget (setBudget db cid uid L) cid uid = some L := by
  unfold setBudget findBudget
  by_cases hany : (db.budgets.any fun b => b.category_id == cid && b.user == uid) = true
  · rw [if_pos hany]
    exact findBudget_upd cid uid L db.budgets hany
  · rw [if_neg hany]
    exact findBudget_append cid uid L db.budgets (by simpa using hany)

theorem Storage.categories_setBudget (db : DB) (cid uid : ℕ) (L : ℚ) :
    (setBudget db cid uid L).categories = db.categories := by
  unfold setBudget
  split <;> rfl

theorem Storage.transactions_setBudget (db : DB) (cid uid : ℕ) (L : ℚ) :
    (setBudget db cid uid L).transactions = db.transactions := by
  unfold setBudget
  split <;> rfl

/-- C8: after `set_budget(category, user, L)` — an upsert — `get_budget_status`
reports that category with `monthly_limit = L`, `spent` the category's expense
total for the month, `remaining = L - spent`, and `percentage = spent/L*100`
when `L > 0` (else 0). -/
theorem C8_budget_roundtrip (db : Storage.DB) (uid cid : ℕ) (L : ℚ) (month : String)
    (c : Storage.Category) (hc : c ∈ db.categories) (hid : c.id = cid)
    (hty : c.type = "expense") (hvis : c.user = some uid ∨ c.user = none) :
    ∃ item ∈ Storage.getBudgetStatus (Storage.setBudget db cid uid L) uid month,
      item.id = cid ∧ item.monthly_limit = L ∧
      item.spent = Storage.spentIn db cid uid month ∧
      item.remaining = L - item.spent ∧
      item.percentage = if 0 < L then item.spent / L * 100 else 0 := by
  have hvisb : Storage.visibleTo uid c = true := by
    rcases hvis with h | h <;> simp [Storage.visibleTo, h]
  have hcond : (Storage.visibleTo uid c && c.type == "expense") = true := by
    rw [hvisb, hty]
    rfl
  have hfb : Storage.findBudget (Storage.setBudget db cid uid L) c.id uid = some L := by
    rw [hid]
    exact Storage.findBudget_setBudget db cid uid L
  have hspent : Storage.spentIn (Storage.setBudget db cid uid L) c.id uid month =
      Storage.spentIn db cid uid month := by
    rw [hid]
    unfold Storage.spentIn
    rw [Storage.transactions_setBudget]
  refine ⟨⟨c.id, c.name, c.icon, L, Storage.spentIn db cid uid month,
    L - Storage.spentIn db cid uid month,
    if 0 < L then Storage.spentIn db cid uid month / L * 100 else 0⟩,
    ?_, hid, rfl, rfl, rfl, rfl⟩
  unfold Storage.getBudgetStatus
  apply List.mem_filterMap.mpr
  refine ⟨c, by rw [Storage.categories_setBudget]; exact hc, ?_⟩
  rw [if_pos hcond, hfb]
  simp only [hspent]

/-- C8 witness: set a 200 budget on a category with 50 spent in 2025-01. -/
theorem C8_budget_roundtrip_witness :
    ∃ item ∈ Storage.getBudgetStatus (Storage.setBudget Fixtures.dbC8 1 7 200) 7 "2025-01",
      item.id = 1 ∧ item.monthly_limit = 200 ∧
      item.spent = Storage.spentIn Fixtures.dbC8 1 7 "2025-01" ∧
      item.remaining = 200 - item.spent ∧
      item.percentage = if 0 < (200 : ℚ) then item.spent / 200 * 100 else 0 :=
  C8_budget_roundtrip Fixtures.dbC8 7 1 200 "2025-01"
    ⟨1, "Food & Dining", "expense", "🍔", some 7⟩ (by decide) rfl rfl (Or.inl rfl)

/-! ## C9 -/

/-- C9: for the message "hi" on the deterministic path (no remote model
configured), the result is the greeting action with one of the three fixed
greeting templates as response, and the storage state is returned unchanged
(no transaction, budget or setting write) — for every behaviour of the
non-greeting intent regexes, of the statistical classifier, and every storage
state. -/
theorem C9_greeting_no_write (o : Assistant.Oracles) (model : List Char → String × ℚ)
    (extract : String → Option Assistant.GeminiJson) (db : Storage.DB) (uid : ℕ)
    (today : String) (choice : ℕ) :
    ∃ g ∈ Assistant.greetings,
      Assistant.processMessage o model extract db "hi" uid today choice none =
        .ok ({ response := some g, action := "greeting" }, db) := by
  have hg : Assistant.greetingMatch (Assistant.stripLower "hi") = true := by decide
  refine ⟨Assistant.greetings.getD (choice % Assistant.greetings.length) "", ?_, ?_⟩
  · have h3 : choice % 3 = 0 ∨ choice % 3 = 1 ∨ choice % 3 = 2 := by omega
    rcases h3 with h | h | h <;> simp [Assistant.greetings, h]
  · simp [Assistant.processMessage, Assistant.processWithRegex, hg]

/-! ## C5 -/

/-- C5: counterexample.  With a remote model configured, a reply whose JSON
fragment is unparseable is NOT routed to the deterministic regex path: the
source returns the raw remote text as a chat response.  On the message "hi"
the regex path returns the greeting result, so the two paths disagree. -/
theorem C5_counterexample :
    Assistant.processMessage Fixtures.oracles0 Categorizer.model0 Fixtures.extract0
        Fixtures.db0 "hi" 7 "2025-01-15" 0 (some (some "{ not json }")) =
      .ok ({ response := some "{ not json }", action := "chat" }, Fixtures.db0) ∧
    Assistant.processMessage Fixtures.oracles0 Categorizer.model0 Fixtures.extract0
        Fixtures.db0 "hi" 7 "2025-01-15" 0 none =
      .ok ({ response := some "Hello! 👋 I'm your AI expense assistant. How can I help you today?",
             action := "greeting" }, Fixtures.db0) ∧
    Assistant.processMessage Fixtures.oracles0 Categorizer.model0 Fixtures.extract0
        Fixtures.db0 "hi" 7 "2025-01-15" 0 (some (some "{ not json }")) ≠
      Assistant.processMessage Fixtures.oracles0 Categorizer.model0 Fixtures.extract0
        Fixtures.db0 "hi" 7 "2025-01-15" 0 none := by
  have h1 : Assistant.processMessage Fixtures.oracles0 Categorizer.model0 Fixtures.extract0
      Fixtures.db0 "hi" 7 "2025-01-15" 0 (some (some "{ not json }")) =
      .ok ({ response := some "{ not json }", action := "chat" }, Fixtures.db0) := rfl
  have h2 : Assistant.processMessage Fixtures.oracles0 Categorizer.model0 Fixtures.extract0
      Fixtures.db0 "hi" 7 "2025-01-15" 0 none =
      .ok ({ response := some "Hello! 👋 I'm your AI expense assistant. How can I help you today?",
             action := "greeting" }, Fixtures.db0) := rfl
  refine ⟨h1, h2, ?_⟩
  rw [h1, h2]
  simp

/-- C5 (amended): a remote-call failure (exception/timeout of the generate
call) yields exactly the deterministic regex result for the same normalized
message and user; a successful remote reply with no parseable JSON fragment
yields a chat response carrying the remote text (not the regex result); and
`process_message` introduces no failure of its own — it can only raise when
the deterministic regex path itself raises. -/
theorem C5_amended (o : Assistant.Oracles) (model : List Char → String × ℚ)
    (extract : String → Option Assistant.GeminiJson) (db : Storage.DB) (msg : String)
    (uid : ℕ) (today : String) (choice : ℕ) :
    (Assistant.processMessage o model extract db msg uid today choice (some none) =
      Assistant.processWithRegex o model db (Assistant.stripLower msg) uid today choice) ∧
    (∀ text, extract text = none →
      Assistant.processMessage o model extract db msg uid today choice (some (some text)) =
        .ok ({ response := some text, action := "chat" }, db)) ∧
    (∀ remote e,
      Assistant.processMessage o model extract db msg uid today choice (some remote) =
          .error e →
        Assistant.processWithRegex o model db (Assistant.stripLower msg) uid today choice =
          .error e) := by
  refine ⟨rfl, ?_, ?_⟩
  · intro text h
    simp [Assistant.processMessage, Assistant.processWithGemini, h]
  · intro remote e h
    cases remote with
    | none => exact h
    | some text =>
      exfalso
      simp only [Assistant.processMessage, Assistant.processWithGemini] at h
      cases hx : extract text with
      | none => simp only [hx] at h; exact Except.noConfusion h
      | some js =>
        simp only [hx] at h
        by_cases ha : (js.action == some "add_expense") = true
        · rw [if_pos ha] at h
          cases hamt : js.amount with
          | none => simp only [hamt] at h; exact Except.noConfusion h
          | some amt =>
            cases hd : js.description with
            | none => simp only [hamt, hd] at h; exact Except.noConfusion h
            | some d =>
              simp only [hamt, hd] at h
              cases hh : Assistant.handleAddExpense model db amt (some d) uid today with
              | ok r => simp only [hh] at h; exact Except.noConfusion h
              | error e2 => simp only [hh] at h; exact Except.noConfusion h
        · rw [if_neg ha] at h
          by_cases hb : (js.action == some "add_income") = true
          · rw [if_pos hb] at h
            cases hamt : js.amount with
            | none => simp only [hamt] at h; exact Except.noConfusion h
            | some amt =>
              cases hd : js.description with
              | none => simp only [hamt, hd] at h; exact Except.noConfusion h
              | some d =>
                simp only [hamt, hd] at h
                cases hh : Assistant.handleAddIncome model db amt (some d) uid today with
                | ok r => simp only [hh] at h; exact Except.noConfusion h
                | error e2 => simp only [hh] at h; exact Except.noConfusion h
          · rw [if_neg hb] at h
            exact Except.noConfusion h

/-- C5 witness: the amended theorem applied at the empty state and the message
"hi", with a remote error and with an unparseable remote reply. -/
theorem C5_amended_witness :
    (Assistant.processMessage Fixtures.oracles0 Categorizer.model0 Fixtures.extract0
        Fixtures.db0 "hi" 7 "2025-01-15" 0 (some none) =
      Assistant.processWithRegex Fixtures.oracles0 Categorizer.model0 Fixtures.db0
        (Assistant.stripLower "hi") 7 "2025-01-15" 0) ∧
    Assistant.processMessage Fixtures.oracles0 Categorizer.model0 Fixtures.extract0
        Fixtures.db0 "hi" 7 "2025-01-15" 0 (some (some "replied without json")) =
      .ok ({ response := some "replied without json", action := "chat" }, Fixtures.db0) :=
  ⟨(C5_amended Fixtures.oracles0 Categorizer.model0 Fixtures.extract0 Fixtures.db0 "hi" 7
      "2025-01-15" 0).1,
   (C5_amended Fixtures.oracles0 Categorizer.model0 Fixtures.extract0 Fixtures.db0 "hi" 7
      "2025-01-15" 0).2.1 "replied without json" rfl⟩

/-! ## C4 -/

/-- C4: counterexample.  The add-expense handler's name lookup is NOT filtered
to expense categories: on description "salary" the categorizer predicts
"Salary", the lookup finds the user's income category of that name, and the
expense transaction is persisted to it — even though an "Other" expense
category exists for the fallback the claim expects. -/
theorem C4_counterexample :
    Assistant.handleAddExpense Categorizer.model0 Fixtures.dbC4 100 (some "salary") 7
        "2025-01-15" =
      .ok ({ response := none, action := "expense_added" },
        { Fixtures.dbC4 with
            transactions := [⟨100, "Salary", 2, "expense", "2025-01-15", 7⟩] }) ∧
    (Storage.getCategoryByName Fixtures.dbC4 "Salary" 7).map (·.type) = some "income" ∧
    (Storage.getCategories Fixtures.dbC4 (some "expense") 7).map (·.name) = ["Other"] :=
  ⟨rfl, rfl, rfl⟩

/-- C4 (amended): both handlers look the predicted label up filtered to the
acting user (own or global categories) but not by type.  When the lookup
succeeds the expense handler persists to the found category whatever its type;
the income handler uses it only if its type is income.  Only when the lookup
finds nothing does the expense handler fall back, to the first expense
category whose name contains "Other", else the first expense category. -/
theorem C4_amended (model : List Char → String × ℚ) (db : Storage.DB) (amount : ℚ)
    (desc : Option String) (uid : ℕ) (today : String) (c : Storage.Category) :
    (Storage.getCategoryByName db (Assistant.predictOpt model desc).1 uid = some c →
      Assistant.handleAddExpense model db amount desc uid today =
        .ok ({ response := none, action := "expense_added" },
          Storage.addTransaction db amount (Assistant.titleOr desc "Expense") c.id
            "expense" today uid)) ∧
    (Storage.getCategoryByName db (Assistant.predictOpt model desc).1 uid = some c →
      c.type = "income" →
      Assistant.handleAddIncome model db amount desc uid today =
        .ok ({ response := none, action := "income_added" },
          Storage.addTransaction db amount (Assistant.titleOr desc "Income") c.id
            "income" today uid)) ∧
    (Storage.getCategoryByName db (Assistant.predictOpt model desc).1 uid = none →
      ∀ c0 rest, Storage.getCategories db (some "expense") uid = c0 :: rest →
        Assistant.handleAddExpense model db amount desc uid today =
          .ok ({ response := none, action := "expense_added" },
            Storage.addTransaction db amount (Assistant.titleOr desc "Expense")
              ((((c0 :: rest).find? fun x => Assistant.containsSub "Other" x.name).getD c0).id)
              "expense" today uid)) := by
  refine ⟨?_, ?_, ?_⟩
  · intro h
    simp only [Assistant.handleAddExpense, h]
  · intro h hty
    simp only [Assistant.handleAddIncome, h, hty]
    simp
  · intro h c0 rest hcats
    simp only [Assistant.handleAddExpense, h, hcats]

/-- C4 witness: the amended theorem at concrete states — the found-category
clauses at a state holding an income "Salary" category, the fallback clause at
a state where the predicted label has no category. -/
theorem C4_amended_witness :
    (Assistant.handleAddExpense Categorizer.model0 Fixtures.dbC4 100 (some "salary") 7
        "2025-01-15" =
      .ok ({ response := none, action := "expense_added" },
        Storage.addTransaction Fixtures.dbC4 100
          (Assistant.titleOr (some "salary") "Expense")
          (⟨2, "Salary", "income", "💵", some 7⟩ : Storage.Category).id "expense"
          "2025-01-15" 7)) ∧
    (Assistant.handleAddIncome Categorizer.model0 Fixtures.dbC4 100 (some "salary") 7
        "2025-01-15" =
      .ok ({ response := none, action := "income_added" },
        Storage.addTransaction Fixtures.dbC4 100
          (Assistant.titleOr (some "salary") "Income")
          (⟨2, "Salary", "income", "💵", some 7⟩ : Storage.Category).id "income"
          "2025-01-15" 7)) ∧
    Assistant.handleAddExpense Categorizer.model0 Fixtures.dbC10 100 (some "salary") 7
        "2025-01-15" =
      .ok ({ response := none, action := "expense_added" },
        Storage.addTransaction Fixtures.dbC10 100
          (Assistant.titleOr (some "salary") "Expense")
          ((((⟨1, "Other", "expense", "📦", some 7⟩ : Storage.Category) :: []).find? fun x =>
              Assistant.containsSub "Other" x.name).getD
            ⟨1, "Other", "expense", "📦", some 7⟩).id "expense" "2025-01-15" 7) :=
  ⟨(C4_amended Categorizer.model0 Fixtures.dbC4 100 (some "salary") 7 "2025-01-15"
      ⟨2, "Salary", "income", "💵", some 7⟩).1 rfl,
   (C4_amended Categorizer.model0 Fixtures.dbC4 100 (some "salary") 7 "2025-01-15"
      ⟨2, "Salary", "income", "💵", some 7⟩).2.1 rfl rfl,
   (C4_amended Categorizer.model0 Fixtures.dbC10 100 (some "salary") 7 "2025-01-15"
      ⟨2, "Salary", "income", "💵", some 7⟩).2.2 rfl
      ⟨1, "Other", "expense", "📦", some 7⟩ [] rfl⟩

/-! ## C10 -/

theorem Storage.mem_insertCatSorted (c x : Category) (l : List Category) :
    x ∈ insertCatSorted c l ↔ x = c ∨ x ∈ l := by
  induction l with
  | nil => simp [insertCatSorted]
  | cons d rest ih =>
    by_cases h : catLe c d
    · simp [insertCatSorted, h]
    · simp only [insertCatSorted, if_neg h, List.mem_cons, ih]
      tauto

theorem Storage.mem_sortCats (x : Category) (l : List Category) :
    x ∈ sortCats l ↔ x ∈ l := by
  induction l with
  | nil => simp [sortCats]
  | cons c rest ih => simp [sortCats, mem_insertCatSorted, ih]

theorem Storage.mem_getCategories (db : DB) (uid : ℕ) (t : String) (c : Category)
    (hc : c ∈ db.categories) (hv : visibleTo uid c = true) (ht : (c.type == t) = true) :
    c ∈ getCategories db (some t) uid := by
  unfold getCategories
  rw [mem_sortCats]
  exact List.mem_filter.mpr ⟨List.mem_filter.mpr ⟨hc, hv⟩, ht⟩

/-- C10: counterexample.  With description "salary" and no income category at
all, the add-income handler raises (IndexError from the eagerly evaluated
`categories[0]` in the salary branch) instead of returning the error
response. -/
theorem C10_counterexample :
    Assistant.handleAddIncome Categorizer.model0 Fixtures.dbC10 100 (some "salary") 7
        "2025-01-15" = .error "IndexError" ∧
    Storage.getCategories Fixtures.dbC10 (some "income") 7 = [] :=
  ⟨rfl, rfl⟩

/-- C10 (amended): the add-expense handler never raises when the user has at
least one expense category, and raises IndexError when the predicted label is
not found and the expense category list is empty; the add-income handler
returns the error response instead of raising when no income category exists
and the description does not mention "salary" — but with a salary-mentioning
description and no income category it raises IndexError. -/
theorem C10_amended (model : List Char → String × ℚ) (db : Storage.DB) (amount : ℚ)
    (desc : Option String) (uid : ℕ) (today : String) :
    (Storage.getCategories db (some "expense") uid ≠ [] →
      ∃ r, Assistant.handleAddExpense model db amount desc uid today = .ok r) ∧
    (Storage.getCategoryByName db (Assistant.predictOpt model desc).1 uid = none →
      Storage.getCategories db (some "expense") uid = [] →
      Assistant.handleAddExpense model db amount desc uid today = .error "IndexError") ∧
    (∀ d, desc = some d →
      Assistant.containsSub "salary" ⟨d.data.map Char.toLower⟩ = false →
      Storage.getCategories db (some "income") uid = [] →
      Assistant.handleAddIncome model db amount desc uid today =
        .ok ({ response := some "❌ Sorry, I couldn't find an income category. Please try again.",
               action := "error" }, db)) ∧
    (∀ d, desc = some d →
      Assistant.containsSub "salary" ⟨d.data.map Char.toLower⟩ = true →
      Storage.getCategories db (some "income") uid = [] →
      Assistant.handleAddIncome model db amount desc uid today = .error "IndexError") := by
  refine ⟨?_, ?_, ?_, ?_⟩
  · intro hne
    cases hl : Storage.getCategoryByName db (Assistant.predictOpt model desc).1 uid with
    | some c =>
      have heq : Assistant.handleAddExpense model db amount desc uid today =
          .ok ({ response := none, action := "expense_added" },
            Storage.addTransaction db amount (Assistant.titleOr desc "Expense") c.id
              "expense" today uid) := by
        simp only [Assistant.handleAddExpense, hl]
      exact ⟨_, heq⟩
    | none =>
      cases hcats : Storage.getCategories db (some "expense") uid with
      | nil => exact absurd hcats hne
      | cons c0 rest =>
        have heq : Assistant.handleAddExpense model db amount desc uid today =
            .ok ({ response := none, action := "expense_added" },
              Storage.addTransaction db amount (Assistant.titleOr desc "Expense")
                (((c0 :: rest).find? fun c => Assistant.containsSub "Other" c.name).getD
                  c0).id "expense" today uid) := by
          simp only [Assistant.handleAddExpense, hl, hcats]
        exact ⟨_, heq⟩
  · intro h1 h2
    simp only [Assistant.handleAddExpense, h1, h2]
  · intro d hd hsal hcats0
    subst hd
    cases hl : Storage.getCategoryByName db
        (Assistant.predictOpt model (some d)).1 uid with
    | none =>
      simp [Assistant.handleAddIncome, hl, Assistant.incomeFallbackCategory, hcats0, hsal]
    | some c =>
      cases hb : c.type == "income" with
      | true =>
        have hcmem : c ∈ db.categories := List.mem_of_find?_eq_some hl
        have hpred := List.find?_some hl
        simp only [Bool.and_eq_true] at hpred
        have hv : Storage.visibleTo uid c = true := hpred.2
        have hmem := Storage.mem_getCategories db uid "income" c hcmem hv hb
        rw [hcats0] at hmem
        exact absurd hmem (List.not_mem_nil c)
      | false =>
        simp [Assistant.handleAddIncome, hl, hb, Assistant.incomeFallbackCategory,
          hcats0, hsal]
  · intro d hd hsal hcats0
    subst hd
    cases hl : Storage.getCategoryByName db
        (Assistant.predictOpt model (some d)).1 uid with
    | none =>
      simp [Assistant.handleAddIncome, hl, Assistant.incomeFallbackCategory, hcats0, hsal]
    | some c =>
      cases hb : c.type == "income" with
      | true =>
        have hcmem : c ∈ db.categories := List.mem_of_find?_eq_some hl
        have hpred := List.find?_some hl
        simp only [Bool.and_eq_true] at hpred
        have hv : Storage.visibleTo uid c = true := hpred.2
        have hmem := Storage.mem_getCategories db uid "income" c hcmem hv hb
        rw [hcats0] at hmem
        exact absurd hmem (List.not_mem_nil c)
      | false =>
        simp [Assistant.handleAddIncome, hl, hb, Assistant.incomeFallbackCategory,
          hcats0, hsal]

/-- C10 witness: the amended theorem at concrete states — a non-empty expense
category list, the empty state, and the no-income-category state with a
non-salary and a salary description. -/
theorem C10_amended_witness :
    (∃ r, Assistant.handleAddExpense Categorizer.model0 Fixtures.dbC4 100 none 7
        "2025-01-15" = .ok r) ∧
    Assistant.handleAddExpense Categorizer.model0 Fixtures.db0 100 none 7 "2025-01-15" =
      .error "IndexError" ∧
    Assistant.handleAddIncome Categorizer.model0 Fixtures.dbC10 100 (some "cash") 7
        "2025-01-15" =
      .ok ({ response := some "❌ Sorry, I couldn't find an income category. Please try again.",
             action := "error" }, Fixtures.dbC10) ∧
    Assistant.handleAddIncome Categorizer.model0 Fixtures.dbC10 100 (some "salary") 7
        "2025-01-15" = .error "IndexError" :=
  ⟨(C10_amended Categorizer.model0 Fixtures.dbC4 100 none 7 "2025-01-15").1
      (by simp [Fixtures.dbC4, Storage.getCategories, Storage.sortCats,
        Storage.insertCatSorted, Storage.visibleTo]),
   (C10_amended Categorizer.model0 Fixtures.db0 100 none 7 "2025-01-15").2.1 rfl rfl,
   (C10_amended Categorizer.model0 Fixtures.dbC10 100 (some "cash") 7 "2025-01-15").2.2.1
      "cash" rfl rfl rfl,
   (C10_amended Categorizer.model0 Fixtures.dbC10 100 (some "salary") 7 "2025-01-15").2.2.2
      "salary" rfl rfl rfl⟩

/-! ## C1 -/

/-- C1: counterexample.  The table pair ("Gift", "gift") violates the claim:
"gift" is also a keyword of the earlier category "Shopping", so
`predict("gift")` returns ("Shopping", 0.95), not ("Gift", 0.95). -/
theorem C1_counterexample :
    ("Gift", "gift") ∈ Categorizer.trainingPairs ∧
    Categorizer.predict Categorizer.model0 "gift" = ("Shopping", 95 / 100) ∧
    "Shopping" ≠ "Gift" := by
  refine ⟨by decide, ?_, by decide⟩
  exact Categorizer.predict_eq_of_match Categorizer.model0 "gift" "Shopping"
    (by decide) (by decide)

theorem Categorizer.all_flatMap_pairs (P : String × String → Bool) :
    ∀ table : List (String × List String),
      (∀ q ∈ table, (q.2.map fun k => (q.1, k)).all P = true) →
      (table.flatMap fun p => p.2.map fun k => (p.1, k)).all P = true := by
  intro table
  induction table with
  | nil => intro _; rfl
  | cons hd tl ih =>
    intro h
    rw [List.flatMap_cons, List.all_append, h hd (by simp),
      ih fun q hq => h q (by simp [hq])]
    rfl

set_option maxHeartbeats 4000000 in
set_option maxRecDepth 20000 in
theorem Categorizer.hallChunk0 :
    ((Categorizer.TRAINING_DATA.getD 0 ("", [])).2.map
      (fun k => ((Categorizer.TRAINING_DATA.getD 0 ("", [])).1, k))).all
      Categorizer.pairPred = true := by
  decide

set_option maxHeartbeats 4000000 in
set_option maxRecDepth 20000 in
theorem Categorizer.hallChunk1 :
    ((Categorizer.TRAINING_DATA.getD 1 ("", [])).2.map
      (fun k => ((Categorizer.TRAINING_DATA.getD 1 ("", [])).1, k))).all
      Categorizer.pairPred = true := by
  decide

set_option maxHeartbeats 4000000 in
set_option maxRecDepth 20000 in
theorem Categorizer.hallChunk2 :
    ((Categorizer.TRAINING_DATA.getD 2 ("", [])).2.map
      (fun k => ((Categorizer.TRAINING_DATA.getD 2 ("", [])).1, k))).all
      Categorizer.pairPred = true := by
  decide

set_option maxHeartbeats 4000000 in
set_option maxRecDepth 20000 in
theorem Categorizer.hallChunk3 :
    ((Categorizer.TRAINING_DATA.getD 3 ("", [])).2.map
      (fun k => ((Categorizer.TRAINING_DATA.getD 3 ("", [])).1, k))).all
      Categorizer.pairPred = true := by
  decide

set_option maxHeartbeats 4000000 in
set_option maxRecDepth 20000 in
theorem Categorizer.hallChunk4 :
    ((Categorizer.TRAINING_DATA.getD 4 ("", [])).2.map
      (fun k => ((Categorizer.TRAINING_DATA.getD 4 ("", [])).1, k))).all
      Categorizer.pairPred = true := by
  decide

set_option maxHeartbeats 4000000 in
set_option maxRecDepth 20000 in
theorem Categorizer.hallChunk5 :
    ((Categorizer.TRAINING_DATA.getD 5 ("", [])).2.map
      (fun k => ((Categorizer.TRAINING_DATA.getD 5 ("", [])).1, k))).all
      Categorizer.pairPred = true := by
  decide

set_option maxHeartbeats 4000000 in
set_option maxRecDepth 20000 in
theorem Categorizer.hallChunk6 :
    ((Categorizer.TRAINING_DATA.getD 6 ("", [])).2.map
      (fun k => ((Categorizer.TRAINING_DATA.getD 6 ("", [])).1, k))).all
      Categorizer.pairPred = true := by
  decide

set_option maxHeartbeats 4000000 in
set_option maxRecDepth 20000 in
theorem Categorizer.hallChunk7 :
    ((Categorizer.TRAINING_DATA.getD 7 ("", [])).2.map
      (fun k => ((Categorizer.TRAINING_DATA.getD 7 ("", [])).1, k))).all
      Categorizer.pairPred = true := by
  decide

set_option maxHeartbeats 4000000 in
set_option maxRecDepth 20000 in
theorem Categorizer.hallChunk8 :
    ((Categorizer.TRAINING_DATA.getD 8 ("", [])).2.map
      (fun k => ((Categorizer.TRAINING_DATA.getD 8 ("", [])).1, k))).all
      Categorizer.pairPred = true := by
  decide

set_option maxHeartbeats 4000000 in
set_option maxRecDepth 20000 in
theorem Categorizer.hallChunk9 :
    ((Categorizer.TRAINING_DATA.getD 9 ("", [])).2.map
      (fun k => ((Categorizer.TRAINING_DATA.getD 9 ("", [])).1, k))).all
      Categorizer.pairPred = true := by
  decide

set_option maxHeartbeats 4000000 in
set_option maxRecDepth 20000 in
theorem Categorizer.hallChunk10 :
    ((Categorizer.TRAINING_DATA.getD 10 ("", [])).2.map
      (fun k => ((Categorizer.TRAINING_DATA.getD 10 ("", [])).1, k))).all
      Categorizer.pairPred = true := by
  decide

set_option maxHeartbeats 4000000 in
set_option maxRecDepth 20000 in
theorem Categorizer.hallChunk11 :
    ((Categorizer.TRAINING_DATA.getD 11 ("", [])).2.map
      (fun k => ((Categorizer.TRAINING_DATA.getD 11 ("", [])).1, k))).all
      Categorizer.pairPred = true := by
  decide

theorem Categorizer.hallPairs :
    Categorizer.trainingPairs.all Categorizer.pairPred = true := by
  rw [Categorizer.trainingPairs]
  apply Categorizer.all_flatMap_pairs
  intro q hq
  simp only [Categorizer.TRAINING_DATA, List.mem_cons, List.not_mem_nil, or_false] at hq
  rcases hq with rfl | rfl | rfl | rfl | rfl | rfl | rfl | rfl | rfl | rfl | rfl | rfl
  · exact Categorizer.hallChunk0
  · exact Categorizer.hallChunk1
  · exact Categorizer.hallChunk2
  · exact Categorizer.hallChunk3
  · exact Categorizer.hallChunk4
  · exact Categorizer.hallChunk5
  · exact Categorizer.hallChunk6
  · exact Categorizer.hallChunk7
  · exact Categorizer.hallChunk8
  · exact Categorizer.hallChunk9
  · exact Categorizer.hallChunk10
  · exact Categorizer.hallChunk11

/-- C1 (amended): for every (category, keyword) pair of TRAINING_DATA,
`predict(keyword)` returns confidence 0.95 together with the first category in
table iteration order whose keyword list contains a keyword occurring as a
substring of the normalized input — which is the pair's own category except
when the keyword also matches an earlier category (e.g. "gift", "present",
"books", "gas bill").  This holds for every statistical fallback model, which
is never consulted on table keywords. -/
theorem C1_amended (model : List Char → String × ℚ) :
    ∀ p ∈ Categorizer.trainingPairs,
      (Categorizer.firstMatchSpec (Categorizer.cleanText p.2.data)).isSome = true ∧
      Categorizer.predict model p.2 =
        ((Categorizer.firstMatchSpec (Categorizer.cleanText p.2.data)).getD "Other",
         95 / 100) := by
  intro p hp
  have hq := List.all_eq_true.mp Categorizer.hallPairs p hp
  simp only [Categorizer.pairPred] at hq
  rw [Bool.and_eq_true, Bool.not_eq_true'] at hq
  obtain ⟨hb, hs⟩ := hq
  obtain ⟨c, hc⟩ := Option.isSome_iff_exists.mp hs
  have hfms : Categorizer.firstMatchSpec (Categorizer.cleanText p.2.data) = some c := by
    rw [← Categorizer.keywordMatch_eq_firstMatchSpec]
    exact hc
  refine ⟨by rw [hfms]; rfl, ?_⟩
  rw [hfms]
  exact Categorizer.predict_eq_of_match model p.2 c hb hc

/-- C1 witness: the amended theorem at the first table pair. -/
theorem C1_amended_witness :
    (Categorizer.firstMatchSpec (Categorizer.cleanText ("restaurant").data)).isSome = true ∧
    Categorizer.predict Categorizer.model0 "restaurant" =
      ((Categorizer.firstMatchSpec (Categorizer.cleanText ("restaurant").data)).getD "Other",
       95 / 100) :=
  C1_amended Categorizer.model0 ("Food & Dining", "restaurant") (by decide)
